import Mathlib

/-!
Verification development for the profile page component
(src/src/app/(pages)/user/profile/page.tsx).

The page fetches a flat profile record and renders it as seven fixed
display groups. We embed the JavaScript value semantics the component
relies on (truthiness, the logical-or fallback), the render tree the
component produces, and the fetch effect with its error handling.
-/

namespace ExamPortal

/-- A JavaScript value as it can appear in a profile record field:
a string, a boolean, a number (integers suffice for the claims),
a File object, null, or undefined. -/
inductive JSValue where
  | str (s : String)
  | bool (b : Bool)
  | num (n : Int)
  | file
  | null
  | undefined
deriving DecidableEq, Repr

/-- JavaScript truthiness: empty string, false, 0, null and undefined
are falsy; every other value here is truthy. -/
def truthy : JSValue → Bool
  | .str s => s != ""
  | .bool b => b
  | .num n => n != 0
  | .file => true
  | .null => false
  | .undefined => false

/-- The JavaScript logical-or used by the component for fallbacks:
returns the left value when truthy, the right one otherwise. -/
def jsOr (v d : JSValue) : JSValue := if truthy v then v else d

/-- JavaScript string conversion, as performed by a template literal. -/
def jsToString : JSValue → String
  | .str s => s
  | .bool true => "true"
  | .bool false => "false"
  | .num n => toString n
  | .file => "[object File]"
  | .null => "null"
  | .undefined => "undefined"

/-- A profile record: a flat mapping from field name to value.  The
TypeScript interface carries an index signature `[key: string]: any`,
so the record may hold arbitrary keys; absent keys read as undefined,
which a total function models directly. -/
def ProfileData := String → JSValue

/-- One rendered field row: the label shown on the left, the content of
the value span (a JSValue, since JSX interpolates the raw value), and
the class string of the value span. -/
structure RenderedField where
  label : String
  content : JSValue
  spanClass : String
deriving DecidableEq, Repr

/-- One rendered card: its title and its field rows in order. -/
structure RenderedGroup where
  title : String
  fields : List RenderedField
deriving DecidableEq, Repr

/-- The rendered page: the header text and the cards in order. -/
structure RenderedPage where
  header : String
  groups : List RenderedGroup
deriving DecidableEq, Repr

/-- Span class of an ordinary text field row. -/
def textSpanClass : String :=
  "text-gray-800 bg-gray-100 px-3 py-1 rounded-md text-base font-medium"

/-- Span class of the Aadhaar row (distinct highlight). -/
def aadhaarSpanClass : String :=
  "text-gray-800 bg-yellow-100 px-3 py-1 rounded-md text-base font-medium"

/-- Span class of a conditionally styled row: green background when the
condition holds, red otherwise. -/
def condSpanClass (b : Bool) : String :=
  "text-gray-800 px-3 py-1 rounded-md text-base font-medium " ++
    (if b then "bg-green-100" else "bg-red-100")

/-- (key, label) table of the Personal Details card. -/
def personalFields : List (String × String) :=
  [("name", "Full Name"), ("email", "Email"), ("dob", "Date of Birth"),
   ("phone", "Phone"), ("area", "Area"), ("landmark", "Landmark"),
   ("address", "Address"), ("sonOf", "Son/Daughter Of"),
   ("resident", "Resident Of")]

/-- (key, label) table of the Exam Preferences card. -/
def examFields : List (String × String) :=
  [("examCityPreference1", "Exam City Preference 1"),
   ("examCityPreference2", "Exam City Preference 2")]

/-- (key, label) table of the Experience card. -/
def experienceFields : List (String × String) :=
  [("previousCdaExperience", "Previous CDAC Experience"),
   ("cdaExperienceYears", "Years of Experience"),
   ("cdaExperienceRole", "Role in CDA")]

/-- (key, label) table of the document-presence rows of the Documents card. -/
def documentFields : List (String × String) :=
  [("photo", "Photo"), ("signature", "Signature"),
   ("thumbprint", "Thumbprint")]

/-- (key, label) table of the Bank Details card. -/
def bankFields : List (String × String) :=
  [("accountHolderName", "Account Holder Name"), ("bankName", "Bank Name"),
   ("ifsc", "IFSC Code"), ("branch", "Branch"),
   ("bankAccountNo", "Bank Account No.")]

/-- (key, label) table of the text rows of the Health Declaration card. -/
def healthFields : List (String × String) :=
  [("fever", "Fever"), ("cough", "Cough"),
   ("breathlessness", "Breathlessness"), ("soreThroat", "Sore Throat"),
   ("otherSymptoms", "Other Symptoms"),
   ("otherSymptomsDetails", "Other Symptoms Details"),
   ("closeContact", "Close Contact with COVID Case")]

/-- Render one text field row: the span shows the field value with the
"N/A" fallback, exactly the `profileData[field.key] || "N/A"` line. -/
def renderTextField (r : ProfileData) (kl : String × String) : RenderedField :=
  ⟨kl.2, jsOr (r kl.1) (.str "N/A"), textSpanClass⟩

/-- Render one document-presence row: "Uploaded" on a green background
when the value is truthy, "No file uploaded" on red otherwise. -/
def renderDocField (r : ProfileData) (kl : String × String) : RenderedField :=
  ⟨kl.2, .str (if truthy (r kl.1) then "Uploaded" else "No file uploaded"),
   condSpanClass (truthy (r kl.1))⟩

/-- Render one boolean agreement row: "Yes" on green when the value is
truthy, "No" on red otherwise. -/
def renderBoolField (r : ProfileData) (label key : String) : RenderedField :=
  ⟨label, .str (if truthy (r key) then "Yes" else "No"),
   condSpanClass (truthy (r key))⟩

/-- The Personal Details card. -/
def personalDetailsCard (r : ProfileData) : RenderedGroup :=
  ⟨"Personal Details", personalFields.map (renderTextField r)⟩

/-- The Exam Preferences card. -/
def examPreferencesCard (r : ProfileData) : RenderedGroup :=
  ⟨"Exam Preferences", examFields.map (renderTextField r)⟩

/-- The Experience card. -/
def experienceCard (r : ProfileData) : RenderedGroup :=
  ⟨"Experience", experienceFields.map (renderTextField r)⟩

/-- The Documents card: three presence rows plus the Aadhaar text row
with its yellow highlight. -/
def documentsCard (r : ProfileData) : RenderedGroup :=
  ⟨"Documents",
   documentFields.map (renderDocField r) ++
     [⟨"Aadhaar No.", jsOr (r "aadhaarNo") (.str "N/A"), aadhaarSpanClass⟩]⟩

/-- The Bank Details card. -/
def bankDetailsCard (r : ProfileData) : RenderedGroup :=
  ⟨"Bank Details", bankFields.map (renderTextField r)⟩

/-- The Health Declaration card: seven text rows plus the COVID
declaration agreement row. -/
def healthDeclarationCard (r : ProfileData) : RenderedGroup :=
  ⟨"Health Declaration",
   healthFields.map (renderTextField r) ++
     [renderBoolField r "COVID Declaration Agreement"
        "covidDeclarationAgreement"]⟩

/-- The Agreements card: the penalty clause agreement row. -/
def agreementsCard (r : ProfileData) : RenderedGroup :=
  ⟨"Agreements",
   [renderBoolField r "Penalty Clause Agreement" "penaltyClauseAgreement"]⟩

/-- The full page rendered for a present record: the header falls back
to "User Profile" when the name is falsy, then the seven cards in the
order of the source. -/
def renderProfile (r : ProfileData) : RenderedPage :=
  ⟨if truthy (r "name") then jsToString (r "name") else "User Profile",
   [personalDetailsCard r, examPreferencesCard r, experienceCard r,
    documentsCard r, bankDetailsCard r, healthDeclarationCard r,
    agreementsCard r]⟩

/-- What the component function returns for a given (loading,
profileData) state: the loading view, the bare toast call that the
no-record branch returns, or the rendered page. -/
inductive ProfileView where
  | loadingView
  | toastReturn (message : String)
  | page (p : RenderedPage)
deriving DecidableEq, Repr

/-- The top-level render branches of the component. -/
def profileRender : Bool → Option ProfileData → ProfileView
  | true, _ => .loadingView
  | false, none => .toastReturn "Profile is not found."
  | false, some r => .page (renderProfile r)

/-- Outcome of the one outbound request: a success body, an HTTP error
response carrying a status and an optional message field, or a
network-level failure with no response at all. -/
inductive FetchResult where
  | success (data : ProfileData)
  | httpError (status : Nat) (message : Option String)
  | networkError

/-- Observable effects of one run of the fetch routine: how many
outbound requests were issued, which toasts were shown by the routine,
where it navigated, and the final component state. -/
structure FetchOutcome where
  fetchCalls : Nat
  toasts : List String
  redirect : Option String
  profileData : Option ProfileData
  loading : Bool

/-- Truthiness of the cookie read: js-cookie yields undefined or a
string, and the guard `if (!token)` fires on undefined and on "". -/
def tokenTruthy : Option String → Bool
  | none => false
  | some s => s != ""

/-- The toast text of the generic failure branch:
`err.response?.data?.message || "Data is not found"`. -/
def errorMessage : Option String → String
  | some m => if m != "" then m else "Data is not found"
  | none => "Data is not found"

/-- The fetch routine: guard on the token, one request, then the
success / 401 / generic-failure branches; setLoading(false) runs in
every case (finally). -/
def fetchUserData (token : Option String) (resp : FetchResult) :
    FetchOutcome :=
  if tokenTruthy token then
    match resp with
    | .success d => ⟨1, [], none, some d, false⟩
    | .httpError status msg =>
        if status = 401 then
          ⟨1, ["Session is over please login again."], some "/login", none,
           false⟩
        else ⟨1, [errorMessage msg], none, none, false⟩
    | .networkError => ⟨1, [errorMessage none], none, none, false⟩
  else ⟨0, [], some "/login", none, false⟩

/-- Index of every text field row of the page, as (card title, field
key, label); the Aadhaar row is included since it renders through the
same fallback. -/
def textFieldIndex : List (String × String × String) :=
  (personalFields.map fun kl => ("Personal Details", kl.1, kl.2)) ++
  (examFields.map fun kl => ("Exam Preferences", kl.1, kl.2)) ++
  (experienceFields.map fun kl => ("Experience", kl.1, kl.2)) ++
  [("Documents", "aadhaarNo", "Aadhaar No.")] ++
  (bankFields.map fun kl => ("Bank Details", kl.1, kl.2)) ++
  (healthFields.map fun kl => ("Health Declaration", kl.1, kl.2))

/-- Every record key the render reads: the 27 text keys, the 3 document
keys and the 2 agreement keys (the header reads "name", already
listed). -/
def fixedKeys : List String :=
  (textFieldIndex.map fun t => t.2.1) ++
  (documentFields.map fun kl => kl.1) ++
  ["covidDeclarationAgreement", "penaltyClauseAgreement"]

/-- Look up a rendered card by title. -/
def findGroup (p : RenderedPage) (title : String) : Option RenderedGroup :=
  p.groups.find? (fun g => g.title == title)

/-- Look up a rendered field row by card title and label. -/
def findField (p : RenderedPage) (title lbl : String) :
    Option RenderedField :=
  (findGroup p title).bind (fun g => g.fields.find? (fun f => f.label == lbl))

/-- Content of the value span of a rendered field row. -/
def fieldContent (p : RenderedPage) (title lbl : String) : Option JSValue :=
  (findField p title lbl).map (·.content)

/-- A record with every field absent. -/
def emptyRecord : ProfileData := fun _ => .undefined

/-- A record with every field set to the non-empty string "v". -/
def fullRecord : ProfileData := fun _ => .str "v"

/-- Helper: looking up any text field row of the rendered page yields
the span content produced by the logical-or fallback on that key. -/
theorem fieldContent_text (r : ProfileData) (t : String × String × String)
    (h : t ∈ textFieldIndex) :
    fieldContent (renderProfile r) t.1 t.2.2 =
      some (jsOr (r t.2.1) (.str "N/A")) := by
  fin_cases h <;> rfl

/-- C1: for every text field row of any display group, a falsy record
value (empty string, false, 0, null, undefined) renders the literal
placeholder "N/A", and a truthy value renders the value itself. -/
theorem text_field_placeholder (r : ProfileData)
    (t : String × String × String) (h : t ∈ textFieldIndex) :
    (truthy (r t.2.1) = false →
      fieldContent (renderProfile r) t.1 t.2.2 = some (.str "N/A")) ∧
    (truthy (r t.2.1) = true →
      fieldContent (renderProfile r) t.1 t.2.2 = some (r t.2.1)) := by
  constructor
  · intro hf
    rw [fieldContent_text r t h]
    simp [jsOr, hf]
  · intro ht
    rw [fieldContent_text r t h]
    simp [jsOr, ht]

/-- Witness for C1 at a concrete record whose email field is the
number 0, a falsy value rendered as "N/A". -/
theorem text_field_placeholder_witness :
    fieldContent (renderProfile fun _ => JSValue.num 0)
      "Personal Details" "Email" = some (.str "N/A") := by
  have h := text_field_placeholder (fun _ => JSValue.num 0)
    ("Personal Details", "email", "Email") (by decide)
  exact h.1 (by decide)

/-- C2: with no stored credential the fetch routine redirects to the
login path, issues no outbound request and shows no toast. -/
theorem missing_token_silent_redirect (resp : FetchResult) :
    (fetchUserData none resp).redirect = some "/login" ∧
    (fetchUserData none resp).fetchCalls = 0 ∧
    (fetchUserData none resp).toasts = [] :=
  ⟨rfl, rfl, rfl⟩

/-- C3: with a stored credential and a 401 response, the fetch routine
shows exactly one toast, the session-expired message, and redirects to
the login path. -/
theorem expired_session_toast_and_redirect (tok : String)
    (msg : Option String) (h : tok ≠ "") :
    (fetchUserData (some tok) (.httpError 401 msg)).toasts.length = 1 ∧
    (fetchUserData (some tok) (.httpError 401 msg)).toasts =
      ["Session is over please login again."] ∧
    (fetchUserData (some tok) (.httpError 401 msg)).redirect =
      some "/login" := by
  have ht : tokenTruthy (some tok) = true := by simp [tokenTruthy, h]
  refine ⟨?_, ?_, ?_⟩ <;> simp [fetchUserData, ht]

/-- Witness for C3 at a concrete token and a 401 response. -/
theorem expired_session_toast_and_redirect_witness :
    (fetchUserData (some "tok") (.httpError 401 none)).toasts =
      ["Session is over please login again."] :=
  (expired_session_toast_and_redirect "tok" none (by decide)).2.1

/-- Counterexample for C4 as stated: with a message field present but
equal to the empty string, the toast is not that message but the
generic fallback. -/
theorem non401_empty_message_counterexample :
    (fetchUserData (some "tok") (.httpError 500 (some ""))).toasts ≠
      [""] ∧
    (fetchUserData (some "tok") (.httpError 500 (some ""))).toasts =
      ["Data is not found"] := by
  refine ⟨?_, rfl⟩
  decide

/-- C4 (amended): for every fetch failure whose status is not 401,
including network-level failures, the routine shows one toast whose
text is the backend message when present and non-empty and the generic
fallback otherwise, does not redirect, and the resulting state lands
the component in the no-record render branch. -/
theorem non401_failure_toast_no_redirect (tok : String) (status : Nat)
    (msg : Option String) (htok : tok ≠ "") (hst : status ≠ 401) :
    (fetchUserData (some tok) (.httpError status msg)).toasts =
      [match msg with
       | some m => if m ≠ "" then m else "Data is not found"
       | none => "Data is not found"] ∧
    (fetchUserData (some tok) (.httpError status msg)).redirect = none ∧
    profileRender (fetchUserData (some tok) (.httpError status msg)).loading
        (fetchUserData (some tok) (.httpError status msg)).profileData =
      .toastReturn "Profile is not found." ∧
    (fetchUserData (some tok) FetchResult.networkError).toasts =
      ["Data is not found"] ∧
    (fetchUserData (some tok) FetchResult.networkError).redirect = none ∧
    profileRender (fetchUserData (some tok) FetchResult.networkError).loading
        (fetchUserData (some tok) FetchResult.networkError).profileData =
      .toastReturn "Profile is not found." := by
  have ht : tokenTruthy (some tok) = true := by simp [tokenTruthy, htok]
  refine ⟨?_, ?_, ?_, ?_, ?_, ?_⟩ <;>
    simp [fetchUserData, ht, hst, errorMessage, profileRender]

/-- Witness for the amended C4 at a concrete non-401 failure carrying a
non-empty message. -/
theorem non401_failure_toast_no_redirect_witness :
    (fetchUserData (some "tok") (.httpError 500 (some "oops"))).toasts =
      ["oops"] := by
  have h := non401_failure_toast_no_redirect "tok" 500 (some "oops")
    (by decide) (by decide)
  simpa using h.1

/-- C5: for a record whose text fields are all present as non-empty
strings, the page has exactly the seven cards in the fixed source
order, each with its fixed labels in order, and every text field span
shows the record value exactly as received; a successful fetch with a
stored credential lands the component on this page. -/
theorem full_record_seven_groups (r : ProfileData)
    (h : ∀ t ∈ textFieldIndex, ∃ s, r t.2.1 = JSValue.str s ∧ s ≠ "") :
    (renderProfile r).groups.map (fun g => (g.title, g.fields.map (·.label)))
      = [("Personal Details",
          ["Full Name", "Email", "Date of Birth", "Phone", "Area",
           "Landmark", "Address", "Son/Daughter Of", "Resident Of"]),
         ("Exam Preferences",
          ["Exam City Preference 1", "Exam City Preference 2"]),
         ("Experience",
          ["Previous CDAC Experience", "Years of Experience",
           "Role in CDA"]),
         ("Documents", ["Photo", "Signature", "Thumbprint", "Aadhaar No."]),
         ("Bank Details",
          ["Account Holder Name", "Bank Name", "IFSC Code", "Branch",
           "Bank Account No."]),
         ("Health Declaration",
          ["Fever", "Cough", "Breathlessness", "Sore Throat",
           "Other Symptoms", "Other Symptoms Details",
           "Close Contact with COVID Case",
           "COVID Declaration Agreement"]),
         ("Agreements", ["Penalty Clause Agreement"])] ∧
    (∀ t ∈ textFieldIndex,
      fieldContent (renderProfile r) t.1 t.2.2 = some (r t.2.1)) ∧
    (∀ tok : String, tok ≠ "" →
      profileRender (fetchUserData (some tok) (.success r)).loading
          (fetchUserData (some tok) (.success r)).profileData =
        .page (renderProfile r)) := by
  refine ⟨rfl, fun t ht => ?_, fun tok htok => ?_⟩
  · rw [fieldContent_text r t ht]
    obtain ⟨s, hs, hne⟩ := h t ht
    simp [jsOr, truthy, hs, hne]
  · have htt : tokenTruthy (some tok) = true := by simp [tokenTruthy, htok]
    simp [fetchUserData, htt, profileRender]

/-- Witness for C5 at the all-strings record: a representative text
span shows the value as received. -/
theorem full_record_seven_groups_witness :
    fieldContent (renderProfile fullRecord) "Bank Details" "IFSC Code" =
      some (JSValue.str "v") := by
  have h := full_record_seven_groups fullRecord
    (fun t ht => ⟨"v", rfl, by decide⟩)
  exact h.2.1 ("Bank Details", "ifsc", "IFSC Code") (by decide)

/-- Helper: looking up a document-presence row yields the Uploaded /
No file uploaded rendering with the conditional style. -/
theorem findField_doc (r : ProfileData) (t : String × String)
    (h : t ∈ documentFields) :
    findField (renderProfile r) "Documents" t.2 =
      some ⟨t.2,
        .str (if truthy (r t.1) then "Uploaded" else "No file uploaded"),
        condSpanClass (truthy (r t.1))⟩ := by
  fin_cases h <;> rfl

/-- C6: each of the three document-presence rows shows "Uploaded" on
the green background when the record value is truthy and
"No file uploaded" on the red background when it is falsy. -/
theorem document_presence_rendering (r : ProfileData) (t : String × String)
    (h : t ∈ documentFields) :
    (truthy (r t.1) = true →
      findField (renderProfile r) "Documents" t.2 =
        some ⟨t.2, .str "Uploaded",
          "text-gray-800 px-3 py-1 rounded-md text-base font-medium bg-green-100"⟩) ∧
    (truthy (r t.1) = false →
      findField (renderProfile r) "Documents" t.2 =
        some ⟨t.2, .str "No file uploaded",
          "text-gray-800 px-3 py-1 rounded-md text-base font-medium bg-red-100"⟩) := by
  constructor
  · intro hc
    rw [findField_doc r t h]
    simp [hc, condSpanClass]
  · intro hc
    rw [findField_doc r t h]
    simp [hc, condSpanClass]

/-- Witness for C6: a record with a photo present renders Uploaded on
green, and one without renders No file uploaded on red. -/
theorem document_presence_rendering_witness :
    findField (renderProfile fullRecord) "Documents" "Photo" =
      some ⟨"Photo", .str "Uploaded",
        "text-gray-800 px-3 py-1 rounded-md text-base font-medium bg-green-100"⟩ ∧
    findField (renderProfile emptyRecord) "Documents" "Signature" =
      some ⟨"Signature", .str "No file uploaded",
        "text-gray-800 px-3 py-1 rounded-md text-base font-medium bg-red-100"⟩ :=
  ⟨(document_presence_rendering fullRecord ("photo", "Photo")
      (by decide)).1 (by decide),
   (document_presence_rendering emptyRecord ("signature", "Signature")
      (by decide)).2 (by decide)⟩

/-- Helper: the COVID declaration agreement row of the Health
Declaration card, as rendered. -/
theorem findField_covid (r : ProfileData) :
    findField (renderProfile r) "Health Declaration"
        "COVID Declaration Agreement" =
      some ⟨"COVID Declaration Agreement",
        .str (if truthy (r "covidDeclarationAgreement") then "Yes"
              else "No"),
        condSpanClass (truthy (r "covidDeclarationAgreement"))⟩ := rfl

/-- Helper: the penalty clause agreement row of the Agreements card,
as rendered. -/
theorem findField_penalty (r : ProfileData) :
    findField (renderProfile r) "Agreements" "Penalty Clause Agreement" =
      some ⟨"Penalty Clause Agreement",
        .str (if truthy (r "penaltyClauseAgreement") then "Yes" else "No"),
        condSpanClass (truthy (r "penaltyClauseAgreement"))⟩ := rfl

/-- C7: each boolean agreement row shows "Yes" on green when the field
is true and "No" on red when the field is false or absent. -/
theorem agreement_rendering (r : ProfileData) :
    (r "covidDeclarationAgreement" = .bool true →
      findField (renderProfile r) "Health Declaration"
          "COVID Declaration Agreement" =
        some ⟨"COVID Declaration Agreement", .str "Yes",
          "text-gray-800 px-3 py-1 rounded-md text-base font-medium bg-green-100"⟩) ∧
    (r "covidDeclarationAgreement" = .bool false ∨
        r "covidDeclarationAgreement" = .undefined →
      findField (renderProfile r) "Health Declaration"
          "COVID Declaration Agreement" =
        some ⟨"COVID Declaration Agreement", .str "No",
          "text-gray-800 px-3 py-1 rounded-md text-base font-medium bg-red-100"⟩) ∧
    (r "penaltyClauseAgreement" = .bool true →
      findField (renderProfile r) "Agreements" "Penalty Clause Agreement" =
        some ⟨"Penalty Clause Agreement", .str "Yes",
          "text-gray-800 px-3 py-1 rounded-md text-base font-medium bg-green-100"⟩) ∧
    (r "penaltyClauseAgreement" = .bool false ∨
        r "penaltyClauseAgreement" = .undefined →
      findField (renderProfile r) "Agreements" "Penalty Clause Agreement" =
        some ⟨"Penalty Clause Agreement", .str "No",
          "text-gray-800 px-3 py-1 rounded-md text-base font-medium bg-red-100"⟩) := by
  refine ⟨fun hc => ?_, fun hc => ?_, fun hc => ?_, fun hc => ?_⟩
  · rw [findField_covid r]
    simp [hc, truthy, condSpanClass]
  · rw [findField_covid r]
    rcases hc with hc | hc <;> simp [hc, truthy, condSpanClass]
  · rw [findField_penalty r]
    simp [hc, truthy, condSpanClass]
  · rw [findField_penalty r]
    rcases hc with hc | hc <;> simp [hc, truthy, condSpanClass]

/-- Witness for C7: true agreements render Yes on green; absent
agreements render No on red. -/
theorem agreement_rendering_witness :
    findField (renderProfile fun _ => JSValue.bool true)
        "Agreements" "Penalty Clause Agreement" =
      some ⟨"Penalty Clause Agreement", .str "Yes",
        "text-gray-800 px-3 py-1 rounded-md text-base font-medium bg-green-100"⟩ ∧
    findField (renderProfile emptyRecord) "Health Declaration"
        "COVID Declaration Agreement" =
      some ⟨"COVID Declaration Agreement", .str "No",
        "text-gray-800 px-3 py-1 rounded-md text-base font-medium bg-red-100"⟩ :=
  ⟨(agreement_rendering fun _ => JSValue.bool true).2.2.1 rfl,
   (agreement_rendering emptyRecord).2.1 (Or.inr rfl)⟩

/-- C8: once loading is over with no record, the component returns the
toast call itself as its render output, not a page and not the loading
view: the notification stands in place of content. -/
theorem no_record_renders_toast :
    profileRender false none = .toastReturn "Profile is not found." ∧
    (∀ p, profileRender false none ≠ .page p) ∧
    profileRender false none ≠ .loadingView :=
  ⟨rfl, fun p h => by simp [profileRender] at h, by simp [profileRender]⟩

/-- C9: the rendered page reads only the fixed field keys: two records
that agree on those keys render identically, whatever extra unknown
keys hold. -/
theorem unknown_fields_ignored (r₁ r₂ : ProfileData)
    (h : ∀ k ∈ fixedKeys, r₁ k = r₂ k) :
    renderProfile r₁ = renderProfile r₂ := by
  simp only [renderProfile, personalDetailsCard, examPreferencesCard,
    experienceCard, documentsCard, bankDetailsCard, healthDeclarationCard,
    agreementsCard, personalFields, examFields, experienceFields,
    documentFields, bankFields, healthFields, renderTextField,
    renderDocField, renderBoolField, List.map]
  rw [h "name" (by decide), h "email" (by decide), h "dob" (by decide),
    h "phone" (by decide), h "area" (by decide), h "landmark" (by decide),
    h "address" (by decide), h "sonOf" (by decide),
    h "resident" (by decide), h "examCityPreference1" (by decide),
    h "examCityPreference2" (by decide),
    h "previousCdaExperience" (by decide),
    h "cdaExperienceYears" (by decide), h "cdaExperienceRole" (by decide),
    h "photo" (by decide), h "signature" (by decide),
    h "thumbprint" (by decide), h "aadhaarNo" (by decide),
    h "accountHolderName" (by decide), h "bankName" (by decide),
    h "ifsc" (by decide), h "branch" (by decide),
    h "bankAccountNo" (by decide), h "fever" (by decide),
    h "cough" (by decide), h "breathlessness" (by decide),
    h "soreThroat" (by decide), h "otherSymptoms" (by decide),
    h "otherSymptomsDetails" (by decide), h "closeContact" (by decide),
    h "covidDeclarationAgreement" (by decide),
    h "penaltyClauseAgreement" (by decide)]

/-- A record that differs from fullRecord only on a key outside the
fixed field set. -/
def extraFieldRecord : ProfileData :=
  fun k => if k = "unknownExtraField" then .num 7 else .str "v"

/-- Witness for C9: fullRecord and extraFieldRecord differ on the
unknown key yet render the same page. -/
theorem unknown_fields_ignored_witness :
    renderProfile fullRecord = renderProfile extraFieldRecord ∧
    fullRecord "unknownExtraField" ≠ extraFieldRecord "unknownExtraField" :=
  ⟨unknown_fields_ignored fullRecord extraFieldRecord
      (by intro k hk; fin_cases hk <;> decide),
   by decide⟩

/-- C10: the page header shows the name field, stringified, when it is
truthy, and the fixed fallback "User Profile" when it is falsy. -/
theorem header_name_fallback (r : ProfileData) :
    (truthy (r "name") = true →
      (renderProfile r).header = jsToString (r "name")) ∧
    (truthy (r "name") = false →
      (renderProfile r).header = "User Profile") := by
  constructor <;> intro hc <;> simp [renderProfile, hc]

/-- Witness for C10: a record named "v" heads the page with "v", and a
record with no name heads it with "User Profile". -/
theorem header_name_fallback_witness :
    (renderProfile fullRecord).header = "v" ∧
    (renderProfile emptyRecord).header = "User Profile" :=
  ⟨(header_name_fallback fullRecord).1 (by decide),
   (header_name_fallback emptyRecord).2 (by decide)⟩

end ExamPortal
